import Mathlib

/-!
# Nuvolaris CLI: cluster client, namespace lifecycle and wait predicates

A shallow embedding of `src/nuv/kubeclient.go` and `src/nuv/k8s_utils.go`.

The Go code talks to a Kubernetes API server, to the local kube configuration
file and to the terminal.  None of these is part of the program, so they are
kept abstract: a state type `σ` stands for everything outside the process (the
cluster and the file system), every remote or file call is a function
`σ → result × σ` supplied by the caller, and every call and every printed line
is appended to a trace of `Event`s, so that "which calls were issued, and in
which order" is a statement about a list.
-/

namespace Nuv

/-! ## Errors and strings -/

/-- A Go `error` value.  The program only ever looks at `err.Error()`, the
message; `code` stands for whatever else the value carries (for an API status
error, its HTTP code), so that "the same error" is more than "the same text". -/
structure GoError where
  msg : String
  code : Nat
deriving DecidableEq, Repr

/-- The Go call `fmt.Errorf(text)` with a constant text: a fresh error with that message. -/
def errorf (text : String) : GoError := ⟨text, 0⟩

/-- The Go call `fmt.Errorf(text + ": %w", err)`: a fresh error whose message is the
text followed by the message of the wrapped error. -/
def errorfWrap (text : String) (err : GoError) : GoError := ⟨text ++ err.msg, 0⟩

/-- The typed not-found condition of the API, the one `apierrors.IsNotFound` tests and the
interface section of the specification speaks of: a status error with code 404.  The
program never consults it; it is here to say what the program does not do. -/
def IsNotFound (err : GoError) : Bool := err.code == 404

/-- Whether `sub` occurs in `s` as a contiguous run, on character lists. -/
def containsChars (s sub : List Char) : Bool :=
  s.tails.any (fun t => sub.isPrefixOf t)

/-- The Go function `strings.Contains(s, substr)`. -/
def stringsContains (s substr : String) : Bool :=
  containsChars s.toList substr.toList

deriving instance DecidableEq for Except

/-! ## Remote objects -/

/-- The type `coreV1.PodPhase`, a string type in the Go API. -/
abbrev PodPhase := String

def PodPending : PodPhase := "Pending"
def PodRunning : PodPhase := "Running"
def PodSucceeded : PodPhase := "Succeeded"
def PodFailed : PodPhase := "Failed"
def PodUnknown : PodPhase := "Unknown"

/-- The part of `coreV1.Namespace` the program sets or could observe. -/
structure Namespace where
  name : String
  phase : String
deriving DecidableEq, Repr

/-- The part of `coreV1.Pod` the program reads: `pod.Status.Phase`. -/
structure Pod where
  name : String
  phase : PodPhase
deriving DecidableEq, Repr

/-- One entry of the `Contexts` map of a kube configuration. -/
structure KubeContext where
  cluster : String
  authInfo : String
  nsName : String
deriving DecidableEq, Repr

/-- The type `clientcmdapi.Config`: the loaded kube configuration.  The maps are
association lists; the order of the list carries no meaning (see `Host.rangeKeys`). -/
structure Config where
  clusters : List (String × String)
  authInfos : List (String × String)
  contexts : List (String × KubeContext)
  currentContext : String
deriving DecidableEq, Repr

/-- The type `rest.Config`, the connection configuration; only passed along. -/
structure RestConfig where
  host : String
deriving DecidableEq, Repr

/-! ## Trace -/

/-- What the process does to the outside world, in the order it does it. -/
inductive Event where
  | getNamespace (name : String)
  | createNamespace (name : String)
  | deleteNamespace (name : String)
  | deleteCRD (name : String)
  | getPod (ns : String) (name : String)
  | println (line : String)
  | printf (text : String)
  | pollImmediate (interval : Nat) (timeout : Nat)
  | configKind
  | manageKindCluster (verb : String)
  | buildConfigFromFlags (path : String)
  | rawConfig (path : String)
  | modifyConfig (cfg : Config)
  | newClientset
  | newExtClientset
deriving DecidableEq, Repr

/-- The outside world together with the trace of what was done to it so far. -/
structure World (σ : Type) where
  st : σ
  trace : List Event
deriving DecidableEq

/-- Record one event. -/
def World.emit {σ : Type} (w : World σ) (e : Event) : World σ :=
  { w with trace := w.trace ++ [e] }

/-- Record one event and move the outside world to `s`. -/
def World.step {σ : Type} (w : World σ) (e : Event) (s : σ) : World σ :=
  { st := s, trace := w.trace ++ [e] }

/-! ## API clients -/

/-- The calls of `kubernetes.Interface` the program makes.  Each takes the state of
the outside world and returns the answer and the next state. -/
structure Clientset (σ : Type) where
  /-- The call `CoreV1().Namespaces().Get(ctx, name, opts)`. -/
  namespacesGet : String → σ → Except GoError Namespace × σ
  /-- The call `CoreV1().Namespaces().Create(ctx, ns, opts)`. -/
  namespacesCreate : Namespace → σ → Except GoError Namespace × σ
  /-- The call `CoreV1().Namespaces().Delete(ctx, name, opts)`. -/
  namespacesDelete : String → σ → Option GoError × σ
  /-- The call `CoreV1().Pods(ns).Get(ctx, name, opts)`. -/
  podsGet : String → String → σ → Except GoError Pod × σ

/-- The call of `extclientset.Interface` the program makes. -/
structure ExtClientset (σ : Type) where
  /-- The call `ApiextensionsV1().CustomResourceDefinitions().Delete(ctx, name, opts)`. -/
  crdDelete : String → σ → Option GoError × σ

/-- The struct `KubeClient`.  The field `ctx` is always `context.Background()` and
carries nothing; the field `namespace` is `nsName` here, the former being a keyword. -/
structure KubeClient (σ : Type) where
  clientset : Clientset σ
  apiextclientset : ExtClientset σ
  nsName : String
  cfg : RestConfig

/-! ## `kubeclient.go`: namespace lifecycle -/

/-- The method `KubeClient.getNuvolarisNamespace`.  The result is the Go pair
`(*Namespace, error)`, `none` standing for `nil`. -/
def getNuvolarisNamespace {σ : Type} (c : KubeClient σ) (w : World σ) :
    (Option Namespace × Option GoError) × World σ :=
  match c.clientset.namespacesGet c.nsName w.st with
  | (.error err, s) =>
    let w1 := w.step (.getNamespace c.nsName) s
    if stringsContains err.msg "not found" then
      ((none, none), w1)
    else
      ((none, some err), w1)
  | (.ok ns, s) => ((some ns, none), w.step (.getNamespace c.nsName) s)

/-- The method `KubeClient.createNuvolarisNamespace`. -/
def createNuvolarisNamespace {σ : Type} (c : KubeClient σ) (w : World σ) :
    Option GoError × World σ :=
  match getNuvolarisNamespace c w with
  | ((_, some err), w1) => (some err, w1)
  | ((none, none), w1) =>
    let ns : Namespace := { name := c.nsName, phase := "" }
    match c.clientset.namespacesCreate ns w1.st with
    | (.error err, s) =>
      (some err, (w1.step (.createNamespace c.nsName) s).emit
        (.println "failed creation of namespace nuvolaris"))
    | (.ok _, s) =>
      (none, (w1.step (.createNamespace c.nsName) s).emit
        (.println "✓ Namespace nuvolaris created"))
  | ((some _, none), w1) =>
    (none, w1.emit (.println "namespace nuvolaris already exists...skipping"))

/-! ## `k8s_utils.go`: the poller and the wait predicates -/

/-- The type `wait.ConditionFunc`: a predicate over remote state returning the Go
pair `(bool, error)`. -/
abbrev ConditionFunc (σ : Type) := World σ → (Bool × Option GoError) × World σ

/-- The value `wait.ErrWaitTimeout`. -/
def ErrWaitTimeout : GoError := ⟨"timed out waiting for the condition", 0⟩

/-- The polling loop of `pollImmediate`: `elapsed` is the time at which the next
invocation of the predicate happens; `fuel` bounds the number of invocations. -/
def pollLoop {σ : Type} (interval timeout : Nat) (condition : ConditionFunc σ) :
    Nat → Nat → World σ → Option GoError × World σ
  | 0, _, w => (some ErrWaitTimeout, w)
  | fuel + 1, elapsed, w =>
    match condition w with
    | ((_, some err), w1) => (some err, w1)
    | ((true, none), w1) => (none, w1)
    | ((false, none), w1) =>
      if timeout ≤ elapsed + interval then (some ErrWaitTimeout, w1)
      else pollLoop interval timeout condition fuel (elapsed + interval) w1

/-- Modelled from the spec: the library function `wait.PollImmediate(interval, timeout, condition)`
of `k8s.io/apimachinery`, the ConditionPoller of the specification, which the
repository calls and does not contain.  The predicate is invoked immediately, then
once per interval; the first error ends the wait with that error and no further
invocation, the first satisfied answer ends it with no error, and the timeout error
is returned once the elapsed time reaches the timeout.  Time is counted in the unit
of `interval` and `timeout`; with a positive interval the fuel `timeout + 1` is never
used up. -/
def pollImmediate {σ : Type} (interval timeout : Nat) (condition : ConditionFunc σ)
    (w : World σ) : Option GoError × World σ :=
  pollLoop interval timeout condition (timeout + 1) 0 (w.emit (.pollImmediate interval timeout))

/-- The function `getPod`. -/
def getPod {σ : Type} (c : KubeClient σ) (podName : String) (w : World σ) :
    Except GoError Pod × World σ :=
  match c.clientset.podsGet c.nsName podName w.st with
  | (r, s) => (r, w.step (.getPod c.nsName podName) s)

/-- The function `getNamespace`. -/
def getNamespace {σ : Type} (c : KubeClient σ) (nsName : String) (w : World σ) :
    Except GoError Namespace × World σ :=
  match c.clientset.namespacesGet nsName w.st with
  | (r, s) => (r, w.step (.getNamespace nsName) s)

/-- The function `isPodRunning`. -/
def isPodRunning {σ : Type} (c : KubeClient σ) (podName : String) : ConditionFunc σ :=
  fun w =>
    match getPod c podName (w.emit (.printf ".")) with
    | (.error err, w1) => ((false, some err), w1)
    | (.ok pod, w1) =>
      if pod.phase = PodPending then ((false, none), w1)
      else if pod.phase = PodRunning then ((true, none), w1)
      else if pod.phase = PodFailed ∨ pod.phase = PodSucceeded ∨ pod.phase = PodUnknown then
        ((false, some (errorf "pod cannot start...aborting")), w1)
      else ((false, none), w1)

/-- The function `isNamespaceTerminated`. -/
def isNamespaceTerminated {σ : Type} (c : KubeClient σ) (nsName : String) : ConditionFunc σ :=
  fun w =>
    match getNamespace c nsName (w.emit (.printf ".")) with
    | (.error err, w1) => ((true, some err), w1)
    | (.ok _, w1) => ((false, none), w1)

/-- The function `waitForPodRunning`; the interval `time.Second` is `1`, time being
counted in seconds. -/
def waitForPodRunning {σ : Type} (c : KubeClient σ) (podName : String) (timeoutSec : Nat)
    (w : World σ) : Option GoError × World σ :=
  pollImmediate 1 timeoutSec (isPodRunning c podName) w

/-- The function `waitForNamespaceToBeTerminated`. -/
def waitForNamespaceToBeTerminated {σ : Type} (c : KubeClient σ) (nsName : String)
    (timeoutSec : Nat) (w : World σ) : Option GoError × World σ :=
  pollImmediate 1 timeoutSec (isNamespaceTerminated c nsName) w

/-- The method `KubeClient.cleanup`.  The constants `FullCRDName` and `TimeoutInSec`
are declared outside the files at hand and are parameters here. -/
def cleanup {σ : Type} (FullCRDName : String) (TimeoutInSec : Nat) (c : KubeClient σ)
    (w : World σ) : Option GoError × World σ :=
  match c.clientset.namespacesGet c.nsName w.st with
  | (.error _, s) =>
    (none, (w.step (.getNamespace c.nsName) s).emit
      (.println "nuvolaris namespace not found. Nothing to do."))
  | (.ok _, s) =>
    let w1 := w.step (.getNamespace c.nsName) s
    match c.apiextclientset.crdDelete FullCRDName w1.st with
    | (some err, s2) => (some err, w1.step (.deleteCRD FullCRDName) s2)
    | (none, s2) =>
      let w2 := w1.step (.deleteCRD FullCRDName) s2
      match c.clientset.namespacesDelete c.nsName w2.st with
      | (some err, s3) => (some err, w2.step (.deleteNamespace c.nsName) s3)
      | (none, s3) =>
        let w3 := (w2.step (.deleteNamespace c.nsName) s3).emit
          (.println "waiting for nuvolaris namespace to be terminated...a little patience please")
        match waitForNamespaceToBeTerminated c c.nsName TimeoutInSec w3 with
        | (_, w4) => (none, w4.emit (.println "nuvolaris setup cleanup done."))

/-! ## `kubeclient.go`: context resolution and client construction -/

/-- Everything `initClients` and `assertNuvolarisContext` call outside the files at
hand: the repository helpers `GetHomeDir`, `configKind` and `manageKindCluster`, the
`flag` and `filepath` packages, and the `clientcmd` and client constructors. -/
structure Host (σ : Type) where
  /-- The first result of `GetHomeDir()`. -/
  getHomeDir : σ → String
  /-- The function `filepath.Join`. -/
  filepathJoin : List String → String
  /-- The value of the string flag of that name and default after `flag.Parse()`. -/
  flagString : String → String → σ → String
  /-- The error result of `configKind()`. -/
  configKind : σ → Option GoError × σ
  /-- The method `manageKindCluster(verb)` on the result of `configKind()`. -/
  manageKindCluster : String → σ → Option GoError × σ
  /-- The call `clientcmd.BuildConfigFromFlags(masterUrl, path)`. -/
  buildConfigFromFlags : String → String → σ → Except GoError RestConfig × σ
  /-- The call `RawConfig()` on the deferred loader for the explicit path. -/
  rawConfig : String → σ → Except GoError Config × σ
  /-- The order in which `range` visits the keys of the `Contexts` map at hand; the
  language leaves it open, and it is meant to be a rearrangement of the keys. -/
  rangeKeys : List (String × KubeContext) → List String
  /-- The call `clientcmd.ModifyConfig(clientcmd.NewDefaultPathOptions(), config, true)`. -/
  modifyConfig : Config → σ → Option GoError × σ
  /-- The call `kubernetes.NewForConfig(config)`. -/
  newForConfig : RestConfig → σ → Except GoError (Clientset σ) × σ
  /-- The call `extclientset.NewForConfig(config)`. -/
  extNewForConfig : RestConfig → σ → Except GoError (ExtClientset σ) × σ

/-- The function `assertNuvolarisContext`. -/
def assertNuvolarisContext {σ : Type} (host : Host σ) (kubeconfigPath : String)
    (w : World σ) : Option GoError × World σ :=
  match host.rawConfig kubeconfigPath w.st with
  | (.error err, s) =>
    (some (errorfWrap "error getting RawConfig: " err), w.step (.rawConfig kubeconfigPath) s)
  | (.ok config, s) =>
    let w1 := w.step (.rawConfig kubeconfigPath) s
    let nuvolarisContext :=
      ((host.rangeKeys config.contexts).find?
        (fun context => stringsContains context "nuvolaris")).getD ""
    if nuvolarisContext = "" then
      (some (errorf "context nuvolaris not found"), w1)
    else
      let config1 := { config with currentContext := nuvolarisContext }
      match host.modifyConfig config1 w1.st with
      | (some err, s2) =>
        (some (errorfWrap "error ModifyConfig: " err), w1.step (.modifyConfig config1) s2)
      | (none, s2) =>
        (none, (w1.step (.modifyConfig config1) s2).emit
          (.println ("✓ Current context set to " ++ nuvolarisContext)))

/-- Whether the event is the construction of an API client. -/
def isClientConstruction : Event → Bool
  | .newClientset => true
  | .newExtClientset => true
  | _ => false

/-- How a Go call ends: it returns, or the process panics. -/
inductive Outcome (α : Type) where
  | ret (a : α)
  | panicked

/-- The message of the error `initClients` gives when the configuration is unusable. -/
def clusterNotRunning : String :=
  "looks like nuvolaris cluster is not running. Run nuv devcluster create or nuv setup --devcluster"

/-- The opening block of `initClients` (the `if createDevcluster` statement): the error
it returns with, if any. -/
def startDevcluster {σ : Type} (host : Host σ) (createDevcluster : Bool) (w : World σ) :
    Option GoError × World σ :=
  if createDevcluster then
    let w0 := w.emit (.println "Starting devcluster...")
    match host.configKind w0.st with
    | (some err, s) => (some err, w0.step .configKind s)
    | (none, s) =>
      let w1 := w0.step .configKind s
      match host.manageKindCluster "create" w1.st with
      | (some err, s2) => (some err, w1.step (.manageKindCluster "create") s2)
      | (none, s2) => (none, w1.step (.manageKindCluster "create") s2)
  else (none, w)

/-- The function `initClients`.  When the home directory is empty the flag pointer
stays nil and dereferencing it panics. -/
def initClients {σ : Type} (host : Host σ) (createDevcluster : Bool) (w : World σ) :
    Outcome (Option (KubeClient σ) × Option GoError) × World σ :=
  match startDevcluster host createDevcluster w with
  | (some err, w1) => (.ret (none, some err), w1)
  | (none, w1) =>
    let home := host.getHomeDir w1.st
    if home = "" then (.panicked, w1)
    else
      let kubeconfig :=
        host.flagString "kubeconfig" (host.filepathJoin [home, ".kube", "config"]) w1.st
      match host.buildConfigFromFlags "" kubeconfig w1.st with
      | (.error _, s2) =>
        (.ret (none, some (errorf clusterNotRunning)),
          w1.step (.buildConfigFromFlags kubeconfig) s2)
      | (.ok config, s2) =>
        match assertNuvolarisContext host kubeconfig
            (w1.step (.buildConfigFromFlags kubeconfig) s2) with
        | (some _, w3) => (.ret (none, some (errorf clusterNotRunning)), w3)
        | (none, w3) =>
          match host.newForConfig config w3.st with
          | (.error err, s4) =>
            (.ret (none, some (errorf ("failed to create kubernetes client: " ++ err.msg))),
              w3.step .newClientset s4)
          | (.ok clientset, s4) =>
            match host.extNewForConfig config s4 with
            | (.error err, s5) =>
              (.ret (none,
                  some (errorf ("failed to create apiextensions client: " ++ err.msg))),
                (w3.step .newClientset s4).step .newExtClientset s5)
            | (.ok apics, s5) =>
              (.ret (some { clientset := clientset, apiextclientset := apics,
                            nsName := "nuvolaris", cfg := config }, none),
                (w3.step .newClientset s4).step .newExtClientset s5)

end Nuv

/-! ## A scripted cluster, for concrete runs -/

namespace Nuv

/-- The state of a small scripted cluster: whether the namespace exists, for how many
more fetches it lingers once deleted, the errors the mutating calls are set to
answer with, and the phases the pod goes through (the last one stays). -/
structure Sim where
  nsPresent : Bool
  lingering : Option Nat
  getErr : Option GoError
  createErr : Option GoError
  crdDeleteErr : Option GoError
  nsDeleteErr : Option GoError
  podPhases : List PodPhase
  home : String
  kubeConfig : Option Config
deriving DecidableEq, Repr

/-- The not-found error of the scripted cluster. -/
def simNotFound (name : String) : GoError :=
  ⟨"namespaces \"" ++ name ++ "\" not found", 404⟩

/-- The core API of the scripted cluster. -/
def simClientset : Clientset Sim where
  namespacesGet := fun name s =>
    match s.getErr with
    | some err => (.error err, s)
    | none =>
      if s.nsPresent then
        match s.lingering with
        | some 0 => (.error (simNotFound name), { s with nsPresent := false, lingering := none })
        | some (k + 1) => (.ok ⟨name, "Terminating"⟩, { s with lingering := some k })
        | none => (.ok ⟨name, "Active"⟩, s)
      else (.error (simNotFound name), s)
  namespacesCreate := fun ns s =>
    match s.createErr with
    | some err => (.error err, s)
    | none =>
      if s.nsPresent then (.error ⟨"namespaces \"" ++ ns.name ++ "\" already exists", 409⟩, s)
      else (.ok { ns with phase := "Active" }, { s with nsPresent := true })
  namespacesDelete := fun name s =>
    match s.nsDeleteErr with
    | some err => (some err, s)
    | none =>
      if s.nsPresent then (none, { s with lingering := some (s.lingering.getD 1) })
      else (some (simNotFound name), s)
  podsGet := fun _ name s =>
    match s.podPhases with
    | [] => (.error ⟨"pods \"" ++ name ++ "\" not found", 404⟩, s)
    | [p] => (.ok ⟨name, p⟩, s)
    | p :: rest => (.ok ⟨name, p⟩, { s with podPhases := rest })

/-- The extension API of the scripted cluster. -/
def simExtClientset : ExtClientset Sim where
  crdDelete := fun _ s => (s.crdDeleteErr, s)

/-- A client of the scripted cluster, as `initClients` builds it. -/
def simClient : KubeClient Sim where
  clientset := simClientset
  apiextclientset := simExtClientset
  nsName := "nuvolaris"
  cfg := ⟨"https://127.0.0.1:6443"⟩

/-- A kube configuration with the given context names. -/
def simConfig (names : List String) : Config where
  clusters := names.map (fun n => (n, "https://" ++ n ++ ":6443"))
  authInfos := [("admin", "token")]
  contexts := names.map (fun n => (n, ⟨n, "admin", "default"⟩))
  currentContext := "prod"

/-- A scripted cluster without the namespace and without faults, on a machine whose
kube configuration has the contexts prod, nuvolaris-dev and staging. -/
def simEmpty : Sim where
  nsPresent := false
  lingering := none
  getErr := none
  createErr := none
  crdDeleteErr := none
  nsDeleteErr := none
  podPhases := []
  home := "/home/dev"
  kubeConfig := some (simConfig ["prod", "nuvolaris-dev", "staging"])

/-- The machine of the scripted cluster: no dev cluster faults, a kube configuration
that is read from and written to `Sim.kubeConfig`, a map iteration that visits the
keys back to front. -/
def simHost : Host Sim where
  getHomeDir := fun s => s.home
  filepathJoin := fun parts => String.intercalate "/" parts
  flagString := fun _ dflt _ => dflt
  configKind := fun s => (none, s)
  manageKindCluster := fun _ s => (none, s)
  buildConfigFromFlags := fun _ path s =>
    match s.kubeConfig with
    | none => (.error ⟨"stat " ++ path ++ ": no such file or directory", 2⟩, s)
    | some _ => (.ok ⟨"https://127.0.0.1:6443"⟩, s)
  rawConfig := fun path s =>
    match s.kubeConfig with
    | none => (.error ⟨"stat " ++ path ++ ": no such file or directory", 2⟩, s)
    | some cfg => (.ok cfg, s)
  rangeKeys := fun m => (m.map Prod.fst).reverse
  modifyConfig := fun cfg s => (none, { s with kubeConfig := some cfg })
  newForConfig := fun _ s => (.ok simClientset, s)
  extNewForConfig := fun _ s => (.ok simExtClientset, s)

/-- A scripted cluster with the namespace and without faults. -/
def simActive : Sim := { simEmpty with nsPresent := true }

/-- The start of a run on the scripted cluster `s`. -/
def simWorld (s : Sim) : World Sim := ⟨s, []⟩

/-- An error of the API server that is not about absence. -/
def simForbidden : GoError := ⟨"namespaces \"nuvolaris\" is forbidden", 403⟩

/-- An internal error of the API server, not about the namespace, whose text happens to
hold the words "not found". -/
def simLeaderNotFound : GoError := ⟨"etcdserver: leader not found", 500⟩

/-- A not-found answer of the API server in the wording that lacks the words
"not found". -/
def simCouldNotFind : GoError := ⟨"the server could not find the requested resource", 404⟩

end Nuv

/-! ## Theorems -/

namespace Nuv

/-- With a positive interval the fuel of the polling loop is never what ends it: any
two amounts of fuel that cover the time left up to the timeout give the same run. -/
lemma pollLoop_fuel {σ : Type} (interval timeout : Nat) (condition : ConditionFunc σ)
    (hpos : 0 < interval) :
    ∀ (k k' elapsed : Nat) (w : World σ), timeout ≤ elapsed + k → timeout ≤ elapsed + k' →
      pollLoop interval timeout condition (k + 1) elapsed w
        = pollLoop interval timeout condition (k' + 1) elapsed w := by
  intro k
  induction k with
  | zero =>
    intro k' elapsed w hk hk'
    have hle : timeout ≤ elapsed + interval := by omega
    simp only [pollLoop, hle, if_true]
  | succ j ih =>
    intro k' elapsed w hk hk'
    by_cases hle : timeout ≤ elapsed + interval
    · simp only [pollLoop, hle, if_true]
    · obtain ⟨j', rfl⟩ : ∃ j', k' = j' + 1 := ⟨k' - 1, by omega⟩
      have hstep : ∀ w1, pollLoop interval timeout condition (j + 1) (elapsed + interval) w1
          = pollLoop interval timeout condition (j' + 1) (elapsed + interval) w1 :=
        fun w1 => ih j' (elapsed + interval) w1 (by omega) (by omega)
      rw [pollLoop, pollLoop]
      simp only [hle, if_false, hstep]

/-- C4, as the code has it: `getNuvolarisNamespace` tells the not-found case by the text
of the error.  When the fetch fails, the result is the absent one `(nil, nil)` exactly
when the message of the error contains "not found", and it is that same error with no
namespace exactly when the message does not contain it, whatever kind of error it
is; the fetch is the only call issued.  When the fetch succeeds the result is the
fetched namespace and no error. -/
theorem getNuvolarisNamespace_maps_by_message {σ : Type} (c : KubeClient σ) (w : World σ) :
    (∀ err s, c.clientset.namespacesGet c.nsName w.st = (.error err, s) →
        ((getNuvolarisNamespace c w).1 = (none, none)
          ↔ stringsContains err.msg "not found" = true) ∧
        ((getNuvolarisNamespace c w).1 = (none, some err)
          ↔ stringsContains err.msg "not found" = false) ∧
        (getNuvolarisNamespace c w).2 = ⟨s, w.trace ++ [.getNamespace c.nsName]⟩) ∧
    (∀ ns s, c.clientset.namespacesGet c.nsName w.st = (.ok ns, s) →
        (getNuvolarisNamespace c w).1 = (some ns, none) ∧
        (getNuvolarisNamespace c w).2 = ⟨s, w.trace ++ [.getNamespace c.nsName]⟩) := by
  refine ⟨?_, ?_⟩
  · intro err s hget
    cases hnf : stringsContains err.msg "not found" <;>
      simp [getNuvolarisNamespace, hget, hnf, World.step]
  · intro ns s hget
    simp [getNuvolarisNamespace, hget, World.step]

/-- C4 on the scripted cluster: the internal error "etcdserver: leader not found" gives
the absent result, the 404 answer worded "could not find" is returned as an error,
and a present namespace is returned. -/
theorem getNuvolarisNamespace_maps_by_message_witness :
    (getNuvolarisNamespace simClient
        (simWorld { simActive with getErr := some simLeaderNotFound })).1 = (none, none) ∧
    (getNuvolarisNamespace simClient
        (simWorld { simEmpty with getErr := some simCouldNotFind })).1
      = (none, some simCouldNotFind) ∧
    (getNuvolarisNamespace simClient (simWorld simActive)).1
      = (some ⟨"nuvolaris", "Active"⟩, none) :=
  ⟨((getNuvolarisNamespace_maps_by_message simClient
      (simWorld { simActive with getErr := some simLeaderNotFound })).1
      simLeaderNotFound { simActive with getErr := some simLeaderNotFound }
      (by decide)).1.mpr (by decide),
   ((getNuvolarisNamespace_maps_by_message simClient
      (simWorld { simEmpty with getErr := some simCouldNotFind })).1
      simCouldNotFind { simEmpty with getErr := some simCouldNotFind }
      (by decide)).2.1.mpr (by decide),
   ((getNuvolarisNamespace_maps_by_message simClient (simWorld simActive)).2
      ⟨"nuvolaris", "Active"⟩ simActive (by decide)).1⟩

/-- C4 as stated fails in both directions.  The fetch error "etcdserver: leader not
found" with code 500 is not a not-found condition, and on a cluster that has the
namespace `getNuvolarisNamespace` maps it to the absent result instead of returning
it.  The fetch error with code 404 worded "could not find" is a not-found condition,
and `getNuvolarisNamespace` returns it as an error instead of the absent result. -/
theorem getNuvolarisNamespace_not_found_counterexample :
    (IsNotFound simLeaderNotFound = false ∧
      (getNuvolarisNamespace simClient
        (simWorld { simActive with getErr := some simLeaderNotFound })).1 = (none, none) ∧
      (getNuvolarisNamespace simClient
        (simWorld { simActive with getErr := some simLeaderNotFound })).1
        ≠ (none, some simLeaderNotFound)) ∧
    (IsNotFound simCouldNotFind = true ∧
      (getNuvolarisNamespace simClient
        (simWorld { simEmpty with getErr := some simCouldNotFind })).1
        = (none, some simCouldNotFind) ∧
      (getNuvolarisNamespace simClient
        (simWorld { simEmpty with getErr := some simCouldNotFind })).1 ≠ (none, none)) := by
  decide

/-- C1: when the initial namespace fetch succeeds, `cleanup` is fail-fast over its two
deletes, CRD first: an error of the CRD delete is returned as it is and the calls
issued are the fetch and the CRD delete alone (no namespace delete); an error of the
namespace delete after a successful CRD delete is returned as it is and the calls
issued are the fetch and the two deletes alone (no wait is started). -/
theorem cleanup_fail_fast {σ : Type} (FullCRDName : String) (TimeoutInSec : Nat)
    (c : KubeClient σ) (w : World σ) (ns : Namespace) (s1 : σ)
    (hget : c.clientset.namespacesGet c.nsName w.st = (.ok ns, s1)) :
    (∀ err s2, c.apiextclientset.crdDelete FullCRDName s1 = (some err, s2) →
        (cleanup FullCRDName TimeoutInSec c w).1 = some err ∧
        (cleanup FullCRDName TimeoutInSec c w).2.trace
          = w.trace ++ [.getNamespace c.nsName, .deleteCRD FullCRDName]) ∧
    (∀ s2 err s3, c.apiextclientset.crdDelete FullCRDName s1 = (none, s2) →
        c.clientset.namespacesDelete c.nsName s2 = (some err, s3) →
        (cleanup FullCRDName TimeoutInSec c w).1 = some err ∧
        (cleanup FullCRDName TimeoutInSec c w).2.trace
          = w.trace ++ [.getNamespace c.nsName, .deleteCRD FullCRDName,
              .deleteNamespace c.nsName]) := by
  refine ⟨?_, ?_⟩
  · intro err s2 hcrd
    simp [cleanup, hget, World.step, hcrd]
  · intro s2 err s3 hcrd hdel
    simp [cleanup, hget, World.step, hcrd, hdel]

/-- C1 on the scripted cluster: a failing CRD delete, and a failing namespace delete
after a successful CRD delete. -/
theorem cleanup_fail_fast_witness :
    ((cleanup "whisks.nuvolaris.org" 3 simClient
        (simWorld { simActive with crdDeleteErr := some simForbidden })).1 = some simForbidden ∧
      (cleanup "whisks.nuvolaris.org" 3 simClient
        (simWorld { simActive with crdDeleteErr := some simForbidden })).2.trace
        = [] ++ [.getNamespace "nuvolaris", .deleteCRD "whisks.nuvolaris.org"]) ∧
    ((cleanup "whisks.nuvolaris.org" 3 simClient
        (simWorld { simActive with nsDeleteErr := some simForbidden })).1 = some simForbidden ∧
      (cleanup "whisks.nuvolaris.org" 3 simClient
        (simWorld { simActive with nsDeleteErr := some simForbidden })).2.trace
        = [] ++ [.getNamespace "nuvolaris", .deleteCRD "whisks.nuvolaris.org",
            .deleteNamespace "nuvolaris"]) :=
  ⟨(cleanup_fail_fast "whisks.nuvolaris.org" 3 simClient
      (simWorld { simActive with crdDeleteErr := some simForbidden })
      ⟨"nuvolaris", "Active"⟩ { simActive with crdDeleteErr := some simForbidden }
      (by decide)).1 simForbidden { simActive with crdDeleteErr := some simForbidden }
      (by decide),
   (cleanup_fail_fast "whisks.nuvolaris.org" 3 simClient
      (simWorld { simActive with nsDeleteErr := some simForbidden })
      ⟨"nuvolaris", "Active"⟩ { simActive with nsDeleteErr := some simForbidden }
      (by decide)).2 { simActive with nsDeleteErr := some simForbidden } simForbidden
      { simActive with nsDeleteErr := some simForbidden } (by decide) (by decide)⟩

/-- C2: when the namespace fetch fails, in particular when it reports not found,
`cleanup` returns success, and all it does is the fetch and one printed line: no CRD
delete, no namespace delete, no wait. -/
theorem cleanup_absent_namespace {σ : Type} (FullCRDName : String) (TimeoutInSec : Nat)
    (c : KubeClient σ) (w : World σ) (err : GoError) (s1 : σ)
    (hget : c.clientset.namespacesGet c.nsName w.st = (.error err, s1)) :
    (cleanup FullCRDName TimeoutInSec c w).1 = none ∧
    (cleanup FullCRDName TimeoutInSec c w).2.trace
      = w.trace ++ [.getNamespace c.nsName,
          .println "nuvolaris namespace not found. Nothing to do."] ∧
    (cleanup FullCRDName TimeoutInSec c w).2.st = s1 := by
  simp [cleanup, hget, World.step, World.emit]

/-- C2 on the scripted cluster without the namespace. -/
theorem cleanup_absent_namespace_witness :
    (cleanup "whisks.nuvolaris.org" 3 simClient (simWorld simEmpty)).1 = none ∧
    (cleanup "whisks.nuvolaris.org" 3 simClient (simWorld simEmpty)).2.trace
      = [] ++ [.getNamespace "nuvolaris",
          .println "nuvolaris namespace not found. Nothing to do."] ∧
    (cleanup "whisks.nuvolaris.org" 3 simClient (simWorld simEmpty)).2.st = simEmpty :=
  cleanup_absent_namespace "whisks.nuvolaris.org" 3 simClient (simWorld simEmpty)
    (simNotFound "nuvolaris") simEmpty (by decide)

/-- C10: when the namespace fetch, the CRD delete and the namespace delete all succeed,
`cleanup` runs the termination wait, prints its closing line and returns success: its
result is `nil` for every cluster, hence whatever the wait returns there (nothing, the
timeout error or any other error). -/
theorem cleanup_ignores_wait {σ : Type} (FullCRDName : String) (TimeoutInSec : Nat)
    (c : KubeClient σ) (w : World σ) (ns : Namespace) (s1 s2 s3 : σ)
    (hget : c.clientset.namespacesGet c.nsName w.st = (.ok ns, s1))
    (hcrd : c.apiextclientset.crdDelete FullCRDName s1 = (none, s2))
    (hdel : c.clientset.namespacesDelete c.nsName s2 = (none, s3)) :
    (cleanup FullCRDName TimeoutInSec c w).1 = none ∧
    (cleanup FullCRDName TimeoutInSec c w).2.trace
      = (waitForNamespaceToBeTerminated c c.nsName TimeoutInSec
          ⟨s3, w.trace ++ [.getNamespace c.nsName, .deleteCRD FullCRDName,
            .deleteNamespace c.nsName,
            .println "waiting for nuvolaris namespace to be terminated...a little patience please"]⟩).2.trace
        ++ [.println "nuvolaris setup cleanup done."] := by
  simp [cleanup, hget, World.step, World.emit, hcrd, hdel]

/-- C10 on a scripted cluster whose namespace lingers for ten fetches after the
delete, with a timeout of two seconds: the wait ends with the timeout error and
`cleanup` returns success all the same. -/
theorem cleanup_ignores_wait_witness :
    (waitForNamespaceToBeTerminated simClient "nuvolaris" 2
        ⟨{ simActive with lingering := some 10 },
          [] ++ [.getNamespace "nuvolaris", .deleteCRD "whisks.nuvolaris.org",
            .deleteNamespace "nuvolaris",
            .println "waiting for nuvolaris namespace to be terminated...a little patience please"]⟩).1
      = some ErrWaitTimeout ∧
    (cleanup "whisks.nuvolaris.org" 2 simClient
      (simWorld { simActive with lingering := some 11 })).1 = none :=
  ⟨by decide,
   (cleanup_ignores_wait "whisks.nuvolaris.org" 2 simClient
      (simWorld { simActive with lingering := some 11 }) ⟨"nuvolaris", "Terminating"⟩
      { simActive with lingering := some 10 } { simActive with lingering := some 10 }
      { simActive with lingering := some 10 } (by decide) (by decide) (by decide)).1⟩

/-- C3: `createNuvolarisNamespace` is idempotent.  Start from an absent namespace (the
fetch reports not found), let the create call of the first invocation succeed and
let the namespace be present in the state it leaves.  Then both invocations return
success, the first one issues the one create call, and the second one issues a
fetch and no create call and prints the "already exists" line. -/
theorem createNuvolarisNamespace_idempotent {σ : Type} (c : KubeClient σ) (w : World σ)
    (err : GoError) (s1 s2 s3 : σ) (created ns : Namespace)
    (habsent : c.clientset.namespacesGet c.nsName w.st = (.error err, s1))
    (hnotfound : stringsContains err.msg "not found" = true)
    (hcreate : c.clientset.namespacesCreate ⟨c.nsName, ""⟩ s1 = (.ok created, s2))
    (hpresent : c.clientset.namespacesGet c.nsName s2 = (.ok ns, s3)) :
    (createNuvolarisNamespace c w).1 = none ∧
    (createNuvolarisNamespace c w).2.trace
      = w.trace ++ [.getNamespace c.nsName, .createNamespace c.nsName,
          .println "✓ Namespace nuvolaris created"] ∧
    (createNuvolarisNamespace c (createNuvolarisNamespace c w).2).1 = none ∧
    (createNuvolarisNamespace c (createNuvolarisNamespace c w).2).2.trace
      = (createNuvolarisNamespace c w).2.trace ++ [.getNamespace c.nsName,
          .println "namespace nuvolaris already exists...skipping"] ∧
    ((createNuvolarisNamespace c (createNuvolarisNamespace c w).2).2.trace.drop
        w.trace.length).count (.createNamespace c.nsName) = 1 := by
  have h1 : createNuvolarisNamespace c w
      = (none, ⟨s2, w.trace ++ [.getNamespace c.nsName, .createNamespace c.nsName,
          .println "✓ Namespace nuvolaris created"]⟩) := by
    simp [createNuvolarisNamespace, getNuvolarisNamespace, habsent, hnotfound, hcreate,
      World.step, World.emit]
  have h2 : createNuvolarisNamespace c (createNuvolarisNamespace c w).2
      = (none, ⟨s3, w.trace ++ [.getNamespace c.nsName, .createNamespace c.nsName,
          .println "✓ Namespace nuvolaris created", .getNamespace c.nsName,
          .println "namespace nuvolaris already exists...skipping"]⟩) := by
    rw [h1]
    simp [createNuvolarisNamespace, getNuvolarisNamespace, hpresent, World.step, World.emit]
  rw [h2, h1]
  refine ⟨rfl, rfl, rfl, ?_, ?_⟩
  · simp
  · simp [List.count_cons]

/-- C3 on the scripted cluster, starting without the namespace. -/
theorem createNuvolarisNamespace_idempotent_witness :
    (createNuvolarisNamespace simClient (simWorld simEmpty)).1 = none ∧
    (createNuvolarisNamespace simClient (simWorld simEmpty)).2.trace
      = [] ++ [.getNamespace "nuvolaris", .createNamespace "nuvolaris",
          .println "✓ Namespace nuvolaris created"] ∧
    (createNuvolarisNamespace simClient
      (createNuvolarisNamespace simClient (simWorld simEmpty)).2).1 = none ∧
    (createNuvolarisNamespace simClient
      (createNuvolarisNamespace simClient (simWorld simEmpty)).2).2.trace
      = (createNuvolarisNamespace simClient (simWorld simEmpty)).2.trace
        ++ [.getNamespace "nuvolaris",
          .println "namespace nuvolaris already exists...skipping"] ∧
    ((createNuvolarisNamespace simClient
      (createNuvolarisNamespace simClient (simWorld simEmpty)).2).2.trace.drop 0).count
        (.createNamespace "nuvolaris") = 1 :=
  createNuvolarisNamespace_idempotent simClient (simWorld simEmpty)
    (simNotFound "nuvolaris") simEmpty simActive simActive ⟨"nuvolaris", "Active"⟩
    ⟨"nuvolaris", "Active"⟩ (by decide) (by decide) (by decide) (by decide)

/-- C5: `isPodRunning` classifies the phase of the fetched pod: Pending is not yet
satisfied; Running is satisfied; Failed, Succeeded and Unknown give the "pod cannot
start" error; every other phase, the empty one included, is not yet satisfied.  It
is satisfied for no phase but Running, and a failed fetch gives that error with
not satisfied. -/
theorem isPodRunning_classifies {σ : Type} (c : KubeClient σ) (podName : String)
    (w : World σ) :
    (∀ pod s, c.clientset.podsGet c.nsName podName w.st = (.ok pod, s) →
      (pod.phase = "Pending" → (isPodRunning c podName w).1 = (false, none)) ∧
      (pod.phase = "Running" → (isPodRunning c podName w).1 = (true, none)) ∧
      (pod.phase = "Failed" ∨ pod.phase = "Succeeded" ∨ pod.phase = "Unknown" →
        (isPodRunning c podName w).1
          = (false, some (errorf "pod cannot start...aborting"))) ∧
      (pod.phase ∉ ["Pending", "Running", "Failed", "Succeeded", "Unknown"] →
        (isPodRunning c podName w).1 = (false, none)) ∧
      ((isPodRunning c podName w).1.1 = true → pod.phase = "Running")) ∧
    (∀ err s, c.clientset.podsGet c.nsName podName w.st = (.error err, s) →
      (isPodRunning c podName w).1 = (false, some err)) := by
  refine ⟨?_, ?_⟩
  · intro pod s hget
    have hrun : (isPodRunning c podName w).1
        = if pod.phase = "Pending" then (false, none)
          else if pod.phase = "Running" then (true, none)
          else if pod.phase = "Failed" ∨ pod.phase = "Succeeded" ∨ pod.phase = "Unknown"
            then (false, some (errorf "pod cannot start...aborting"))
          else (false, none) := by
      simp only [isPodRunning, getPod, World.emit, hget, PodPending, PodRunning, PodFailed,
        PodSucceeded, PodUnknown]
      split_ifs <;> rfl
    rw [hrun]
    refine ⟨?_, ?_, ?_, ?_, ?_⟩
    · intro h
      simp [h]
    · intro h
      simp [h]
    · intro h
      rcases h with h | h | h <;> simp [h]
    · intro h
      simp only [List.mem_cons, List.mem_singleton, List.not_mem_nil, or_false, not_or] at h
      simp [h.1, h.2.1, h.2.2.1, h.2.2.2.1, h.2.2.2.2]
    · intro h
      split_ifs at h with h1 h2 h3
      simp_all
  · intro err s hget
    simp [isPodRunning, getPod, World.emit, hget]

/-- C5 on the scripted cluster: a pod with the empty phase is not yet satisfied. -/
theorem isPodRunning_classifies_witness :
    (isPodRunning simClient "nuvolaris-operator"
      (simWorld { simActive with podPhases := [""] })).1 = (false, none) :=
  ((isPodRunning_classifies simClient "nuvolaris-operator"
      (simWorld { simActive with podPhases := [""] })).1
      ⟨"nuvolaris-operator", ""⟩ { simActive with podPhases := [""] } (by decide)).2.2.2.1
    (by decide)

/-- C6, as the code has it: when the pod is in the Unknown phase at the first poll,
`waitForPodRunning` does not resolve to satisfied and is ended by the Unknown phase
itself: it returns the "pod cannot start...aborting" error after that one poll,
whatever the timeout. -/
theorem waitForPodRunning_unknown_aborts {σ : Type} (c : KubeClient σ) (podName : String)
    (timeoutSec : Nat) (w : World σ) (pod : Pod) (s : σ)
    (hget : c.clientset.podsGet c.nsName podName w.st = (.ok pod, s))
    (hphase : pod.phase = PodUnknown) :
    (waitForPodRunning c podName timeoutSec w).1
      = some (errorf "pod cannot start...aborting") ∧
    (waitForPodRunning c podName timeoutSec w).2.trace
      = w.trace ++ [.pollImmediate 1 timeoutSec, .printf ".", .getPod c.nsName podName] := by
  have hcond : isPodRunning c podName (w.emit (.pollImmediate 1 timeoutSec))
      = ((false, some (errorf "pod cannot start...aborting")),
          ⟨s, w.trace ++ [.pollImmediate 1 timeoutSec, .printf ".",
            .getPod c.nsName podName]⟩) := by
    simp [isPodRunning, getPod, World.emit, World.step, hget, hphase, PodUnknown, PodPending,
      PodRunning, PodFailed, PodSucceeded]
  simp [waitForPodRunning, pollImmediate, pollLoop, hcond]

/-- C6 on the scripted cluster, with a timeout of five seconds. -/
theorem waitForPodRunning_unknown_aborts_witness :
    (waitForPodRunning simClient "nuvolaris-operator" 5
        (simWorld { simActive with podPhases := ["Unknown"] })).1
      = some (errorf "pod cannot start...aborting") ∧
    (waitForPodRunning simClient "nuvolaris-operator" 5
        (simWorld { simActive with podPhases := ["Unknown"] })).2.trace
      = [] ++ [.pollImmediate 1 5, .printf ".", .getPod "nuvolaris" "nuvolaris-operator"] :=
  waitForPodRunning_unknown_aborts simClient "nuvolaris-operator" 5
    (simWorld { simActive with podPhases := ["Unknown"] }) ⟨"nuvolaris-operator", "Unknown"⟩
    { simActive with podPhases := ["Unknown"] } (by decide) (by decide)

/-- C6 as stated fails: on a scripted cluster whose pod answers Unknown at every fetch
(the fetch leaves the state as it is), with a timeout of five seconds, the wait ends
after a single fetch of the pod, with the "pod cannot start" error and not with the
timeout error; the pod never was Failed. -/
theorem waitForPodRunning_unknown_counterexample :
    simClientset.podsGet "nuvolaris" "nuvolaris-operator"
        { simActive with podPhases := ["Unknown"] }
      = (.ok ⟨"nuvolaris-operator", "Unknown"⟩, { simActive with podPhases := ["Unknown"] }) ∧
    (waitForPodRunning simClient "nuvolaris-operator" 5
        (simWorld { simActive with podPhases := ["Unknown"] })).1
      = some (errorf "pod cannot start...aborting") ∧
    (waitForPodRunning simClient "nuvolaris-operator" 5
        (simWorld { simActive with podPhases := ["Unknown"] })).1 ≠ some ErrWaitTimeout ∧
    (waitForPodRunning simClient "nuvolaris-operator" 5
        (simWorld { simActive with podPhases := ["Unknown"] })).2.trace.count
        (.getPod "nuvolaris" "nuvolaris-operator") = 1 := by
  decide

/-- The predicate `isNamespaceTerminated` has two answers: satisfied together with the
fetch error, or not satisfied without error. -/
lemma isNamespaceTerminated_cases {σ : Type} (c : KubeClient σ) (nsName : String)
    (w : World σ) :
    (∃ err, (isNamespaceTerminated c nsName w).1 = (true, some err)) ∨
    (isNamespaceTerminated c nsName w).1 = (false, none) := by
  unfold isNamespaceTerminated getNamespace
  rcases hget : c.clientset.namespacesGet nsName (w.emit (.printf ".")).st with ⟨err | ns, s⟩
  · exact Or.inl ⟨err, rfl⟩
  · exact Or.inr rfl

/-- The polling loop over `isNamespaceTerminated` never ends without an error. -/
lemma pollLoop_isNamespaceTerminated_ne_none {σ : Type} (c : KubeClient σ) (nsName : String)
    (interval timeout fuel : Nat) :
    ∀ (elapsed : Nat) (w : World σ),
      (pollLoop interval timeout (isNamespaceTerminated c nsName) fuel elapsed w).1 ≠ none := by
  induction fuel with
  | zero =>
    intro elapsed w
    simp [pollLoop]
  | succ fuel ih =>
    intro elapsed w
    rcases hcond : isNamespaceTerminated c nsName w with ⟨⟨ok, e⟩, w1⟩
    rcases isNamespaceTerminated_cases c nsName w with ⟨err, h⟩ | h
    · rw [hcond] at h
      simp only [Prod.mk.injEq] at h
      simp [pollLoop, hcond, h.1, h.2]
    · rw [hcond] at h
      simp only [Prod.mk.injEq] at h
      simp only [pollLoop, hcond, h.1, h.2]
      split_ifs
      · simp
      · exact ih _ _

/-- The wait for the termination of the namespace returns an error on every run: the
fetch error once the namespace is gone, the timeout error otherwise. -/
lemma waitForNamespaceToBeTerminated_ne_none {σ : Type} (c : KubeClient σ)
    (nsName : String) (timeoutSec : Nat) (w : World σ) :
    (waitForNamespaceToBeTerminated c nsName timeoutSec w).1 ≠ none :=
  pollLoop_isNamespaceTerminated_ne_none c nsName 1 timeoutSec (timeoutSec + 1) 0 _

/-- C7 at the failing input: on the scripted cluster without the namespace,
`isNamespaceTerminated` answers satisfied together with the fetch error, and
`waitForNamespaceToBeTerminated` returns that error, not success, after one poll. -/
theorem waitForNamespaceToBeTerminated_absent_returns_error :
    (isNamespaceTerminated simClient "nuvolaris" (simWorld simEmpty)).1
      = (true, some (simNotFound "nuvolaris")) ∧
    (waitForNamespaceToBeTerminated simClient "nuvolaris" 5 (simWorld simEmpty)).1
      = some (simNotFound "nuvolaris") ∧
    (waitForNamespaceToBeTerminated simClient "nuvolaris" 5 (simWorld simEmpty)).1 ≠ none ∧
    (waitForNamespaceToBeTerminated simClient "nuvolaris" 5 (simWorld simEmpty)).2.trace
      = [.pollImmediate 1 5, .printf ".", .getNamespace "nuvolaris"] := by
  decide

/-- A name containing "nuvolaris" is not the empty name. -/
lemma ne_empty_of_contains_nuvolaris (name : String)
    (h : stringsContains name "nuvolaris" = true) : name ≠ "" := by
  intro hempty
  rw [hempty] at h
  exact absurd h (by decide)

/-- When exactly one key satisfies `p`, a search in any rearrangement of the keys
finds that key. -/
lemma find?_of_perm_of_filter_eq_singleton {keys order : List String} (p : String → Bool)
    (name : String) (hperm : order.Perm keys) (hone : keys.filter p = [name]) :
    order.find? p = some name := by
  have hfilter : order.filter p = [name] := by
    have := hperm.filter p
    rw [hone] at this
    exact List.perm_singleton.mp this
  rw [← List.filter_head?, hfilter]
  rfl

/-- When no key satisfies `p`, a search in any rearrangement of the keys finds nothing. -/
lemma find?_of_perm_of_forall_not {keys order : List String} (p : String → Bool)
    (hperm : order.Perm keys) (hnone : ∀ name ∈ keys, p name = false) :
    order.find? p = none := by
  rw [List.find?_eq_none]
  intro x hx
  have := hnone x (hperm.mem_iff.mp hx)
  simp [this]

/-- C8: `assertNuvolarisContext` selects a context by substring, whatever the order in
which the map of contexts is visited.  On a loaded configuration with no context
name containing "nuvolaris" it returns the "context nuvolaris not found" error and
does nothing after the load (no write).  On one with exactly one such name it issues
one write, of the loaded configuration with the current context set to that name and
nothing else changed, and returns success when the write succeeds. -/
theorem assertNuvolarisContext_selects {σ : Type} (host : Host σ) (kubeconfigPath : String)
    (w : World σ) (config : Config) (s1 : σ)
    (hload : host.rawConfig kubeconfigPath w.st = (.ok config, s1))
    (hperm : (host.rangeKeys config.contexts).Perm (config.contexts.map Prod.fst)) :
    ((∀ name ∈ config.contexts.map Prod.fst, stringsContains name "nuvolaris" = false) →
      (assertNuvolarisContext host kubeconfigPath w).1
        = some (errorf "context nuvolaris not found") ∧
      (assertNuvolarisContext host kubeconfigPath w).2.trace
        = w.trace ++ [.rawConfig kubeconfigPath] ∧
      (assertNuvolarisContext host kubeconfigPath w).2.st = s1) ∧
    (∀ name,
      (config.contexts.map Prod.fst).filter (fun n => stringsContains n "nuvolaris") = [name] →
      (∀ s2, host.modifyConfig { config with currentContext := name } s1 = (none, s2) →
        (assertNuvolarisContext host kubeconfigPath w).1 = none ∧
        (assertNuvolarisContext host kubeconfigPath w).2.trace
          = w.trace ++ [.rawConfig kubeconfigPath,
              .modifyConfig { config with currentContext := name },
              .println ("✓ Current context set to " ++ name)] ∧
        (assertNuvolarisContext host kubeconfigPath w).2.st = s2) ∧
      (∀ err s2, host.modifyConfig { config with currentContext := name } s1 = (some err, s2) →
        (assertNuvolarisContext host kubeconfigPath w).1
          = some (errorfWrap "error ModifyConfig: " err) ∧
        (assertNuvolarisContext host kubeconfigPath w).2.trace
          = w.trace ++ [.rawConfig kubeconfigPath,
              .modifyConfig { config with currentContext := name }])) := by
  refine ⟨?_, ?_⟩
  · intro hnone
    have hfind := find?_of_perm_of_forall_not
      (fun n => stringsContains n "nuvolaris") hperm hnone
    simp [assertNuvolarisContext, hload, hfind, World.step]
  · intro name hone
    have hfind := find?_of_perm_of_filter_eq_singleton
      (fun n => stringsContains n "nuvolaris") name hperm hone
    have hmem : name ∈ (config.contexts.map Prod.fst).filter
        (fun n => stringsContains n "nuvolaris") := by
      rw [hone]
      exact List.mem_singleton_self name
    have hne : name ≠ "" := ne_empty_of_contains_nuvolaris name (List.mem_filter.mp hmem).2
    refine ⟨?_, ?_⟩
    · intro s2 hwrite
      simp [assertNuvolarisContext, hload, hfind, hne, World.step, World.emit, hwrite]
    · intro err s2 hwrite
      simp [assertNuvolarisContext, hload, hfind, hne, World.step, hwrite]

/-- C8 on the two configurations of the specification: with the contexts prod and
staging the resolution fails and the stored configuration stays as it was; with
prod, nuvolaris-dev and staging it writes the configuration with nuvolaris-dev as
the current context. -/
theorem assertNuvolarisContext_selects_witness :
    ((assertNuvolarisContext simHost "/home/dev/.kube/config"
        (simWorld { simEmpty with kubeConfig := some (simConfig ["prod", "staging"]) })).1
        = some (errorf "context nuvolaris not found") ∧
      (assertNuvolarisContext simHost "/home/dev/.kube/config"
        (simWorld { simEmpty with kubeConfig := some (simConfig ["prod", "staging"]) })).2.trace
        = [] ++ [.rawConfig "/home/dev/.kube/config"] ∧
      (assertNuvolarisContext simHost "/home/dev/.kube/config"
        (simWorld { simEmpty with kubeConfig := some (simConfig ["prod", "staging"]) })).2.st
        = { simEmpty with kubeConfig := some (simConfig ["prod", "staging"]) }) ∧
    ((assertNuvolarisContext simHost "/home/dev/.kube/config" (simWorld simEmpty)).1 = none ∧
      (assertNuvolarisContext simHost "/home/dev/.kube/config" (simWorld simEmpty)).2.trace
        = [] ++ [.rawConfig "/home/dev/.kube/config",
            .modifyConfig { simConfig ["prod", "nuvolaris-dev", "staging"] with
              currentContext := "nuvolaris-dev" },
            .println ("✓ Current context set to " ++ "nuvolaris-dev")] ∧
      (assertNuvolarisContext simHost "/home/dev/.kube/config" (simWorld simEmpty)).2.st
        = { simEmpty with kubeConfig := some { simConfig ["prod", "nuvolaris-dev", "staging"] with
              currentContext := "nuvolaris-dev" } }) :=
  ⟨(assertNuvolarisContext_selects simHost "/home/dev/.kube/config"
      (simWorld { simEmpty with kubeConfig := some (simConfig ["prod", "staging"]) })
      (simConfig ["prod", "staging"])
      { simEmpty with kubeConfig := some (simConfig ["prod", "staging"]) }
      (by decide) (List.reverse_perm _)).1 (by decide),
   ((assertNuvolarisContext_selects simHost "/home/dev/.kube/config" (simWorld simEmpty)
      (simConfig ["prod", "nuvolaris-dev", "staging"]) simEmpty
      (by decide) (List.reverse_perm _)).2 "nuvolaris-dev" (by decide)).1
      { simEmpty with kubeConfig := some { simConfig ["prod", "nuvolaris-dev", "staging"] with
          currentContext := "nuvolaris-dev" } } (by decide)⟩

/-- The opening block of `initClients` constructs no client. -/
lemma startDevcluster_trace {σ : Type} (host : Host σ) (createDevcluster : Bool)
    (w : World σ) :
    ∃ evs, (startDevcluster host createDevcluster w).2.trace = w.trace ++ evs ∧
      ∀ e ∈ evs, isClientConstruction e = false := by
  unfold startDevcluster
  cases createDevcluster with
  | false => exact ⟨[], by simp, by simp⟩
  | true =>
    simp only [if_true]
    split
    next err s hkind =>
      exact ⟨_, by simp only [World.step, World.emit, List.append_assoc]; rfl,
        by simp [isClientConstruction]⟩
    next s hkind =>
      split
      next err s2 hmanage =>
        exact ⟨_, by simp only [World.step, World.emit, List.append_assoc]; rfl,
          by simp [isClientConstruction]⟩
      next s2 hmanage =>
        exact ⟨_, by simp only [World.step, World.emit, List.append_assoc]; rfl,
          by simp [isClientConstruction]⟩

/-- The function `assertNuvolarisContext` constructs no client. -/
lemma assertNuvolarisContext_trace {σ : Type} (host : Host σ) (kubeconfigPath : String)
    (w : World σ) :
    ∃ evs, (assertNuvolarisContext host kubeconfigPath w).2.trace = w.trace ++ evs ∧
      ∀ e ∈ evs, isClientConstruction e = false := by
  unfold assertNuvolarisContext
  split
  next err s hload =>
    exact ⟨_, by simp only [World.step]; rfl, by simp [isClientConstruction]⟩
  next config s hload =>
    simp only
    split_ifs with hempty
    · exact ⟨_, by simp only [World.step]; rfl, by simp [isClientConstruction]⟩
    · split
      next err s2 hwrite =>
        exact ⟨_, by simp only [World.step, World.emit, List.append_assoc]; rfl,
          by simp [isClientConstruction]⟩
      next s2 hwrite =>
        exact ⟨_, by simp only [World.step, World.emit, List.append_assoc]; rfl,
          by simp [isClientConstruction]⟩

/-- C9: once `initClients` is past its dev cluster block and has a kube configuration
path, a failure to build the connection configuration and a failure of
`assertNuvolarisContext` (with whatever error) end it the same way: no handle, and
an error with the one fixed "cluster is not running" message, which does not depend
on the underlying error; in both cases nothing it did was the construction of a
client. -/
theorem initClients_cluster_not_running {σ : Type} (host : Host σ) (createDevcluster : Bool)
    (w w1 : World σ)
    (hdev : startDevcluster host createDevcluster w = (none, w1))
    (hhome : host.getHomeDir w1.st ≠ "") :
    (∀ err s2,
      host.buildConfigFromFlags ""
        (host.flagString "kubeconfig"
          (host.filepathJoin [host.getHomeDir w1.st, ".kube", "config"]) w1.st) w1.st
        = (.error err, s2) →
      (initClients host createDevcluster w).1
        = .ret (none, some (errorf clusterNotRunning)) ∧
      ∀ e ∈ (initClients host createDevcluster w).2.trace.drop w.trace.length,
        isClientConstruction e = false) ∧
    (∀ config s2 err w3,
      host.buildConfigFromFlags ""
        (host.flagString "kubeconfig"
          (host.filepathJoin [host.getHomeDir w1.st, ".kube", "config"]) w1.st) w1.st
        = (.ok config, s2) →
      assertNuvolarisContext host
        (host.flagString "kubeconfig"
          (host.filepathJoin [host.getHomeDir w1.st, ".kube", "config"]) w1.st)
        (w1.step (.buildConfigFromFlags (host.flagString "kubeconfig"
          (host.filepathJoin [host.getHomeDir w1.st, ".kube", "config"]) w1.st)) s2)
        = (some err, w3) →
      (initClients host createDevcluster w).1
        = .ret (none, some (errorf clusterNotRunning)) ∧
      ∀ e ∈ (initClients host createDevcluster w).2.trace.drop w.trace.length,
        isClientConstruction e = false) := by
  obtain ⟨evs0, htrace0, hevs0⟩ := startDevcluster_trace host createDevcluster w
  rw [hdev] at htrace0
  simp only at htrace0
  refine ⟨?_, ?_⟩
  · intro err s2 hbuild
    have hinit : initClients host createDevcluster w
        = (.ret (none, some (errorf clusterNotRunning)),
            w1.step (.buildConfigFromFlags (host.flagString "kubeconfig"
              (host.filepathJoin [host.getHomeDir w1.st, ".kube", "config"]) w1.st)) s2) := by
      simp [initClients, hdev, hhome, hbuild]
    rw [hinit]
    refine ⟨rfl, ?_⟩
    intro e he
    simp only [World.step, htrace0, List.append_assoc, List.drop_left] at he
    rcases List.mem_append.mp he with h | h
    · exact hevs0 e h
    · rw [List.mem_singleton.mp h]
      rfl
  · intro config s2 err w3 hbuild hassert
    have hinit : initClients host createDevcluster w
        = (.ret (none, some (errorf clusterNotRunning)), w3) := by
      simp [initClients, hdev, hhome, hbuild, hassert]
    obtain ⟨evs1, htrace1, hevs1⟩ := assertNuvolarisContext_trace host
      (host.flagString "kubeconfig"
        (host.filepathJoin [host.getHomeDir w1.st, ".kube", "config"]) w1.st)
      (w1.step (.buildConfigFromFlags (host.flagString "kubeconfig"
        (host.filepathJoin [host.getHomeDir w1.st, ".kube", "config"]) w1.st)) s2)
    rw [hassert] at htrace1
    simp only [World.step, htrace0] at htrace1
    rw [hinit]
    refine ⟨rfl, ?_⟩
    intro e he
    simp only [htrace1, List.append_assoc, List.drop_left] at he
    rcases List.mem_append.mp he with h | h
    · exact hevs0 e h
    · rcases List.mem_append.mp h with h | h
      · rw [List.mem_singleton.mp h]
        rfl
      · exact hevs1 e h

/-- C9 on the scripted machine: with no kube configuration file (after the dev cluster
was started) and with a configuration whose contexts are prod and staging, the
outcome of `initClients` is the same error and no client is constructed. -/
theorem initClients_cluster_not_running_witness :
    ((initClients simHost true (simWorld { simEmpty with kubeConfig := none })).1
        = .ret (none, some (errorf clusterNotRunning)) ∧
      ∀ e ∈ (initClients simHost true
          (simWorld { simEmpty with kubeConfig := none })).2.trace.drop
            (simWorld { simEmpty with kubeConfig := none }).trace.length,
        isClientConstruction e = false) ∧
    ((initClients simHost false
        (simWorld { simEmpty with kubeConfig := some (simConfig ["prod", "staging"]) })).1
        = .ret (none, some (errorf clusterNotRunning)) ∧
      ∀ e ∈ (initClients simHost false
          (simWorld { simEmpty with kubeConfig := some (simConfig ["prod", "staging"]) })).2.trace.drop
            (simWorld { simEmpty with
              kubeConfig := some (simConfig ["prod", "staging"]) }).trace.length,
        isClientConstruction e = false) :=
  ⟨(initClients_cluster_not_running simHost true
      (simWorld { simEmpty with kubeConfig := none })
      ⟨{ simEmpty with kubeConfig := none },
        [.println "Starting devcluster...", .configKind, .manageKindCluster "create"]⟩
      (by decide) (by decide)).1
      ⟨"stat /home/dev/.kube/config: no such file or directory", 2⟩
      { simEmpty with kubeConfig := none } (by decide),
   (initClients_cluster_not_running simHost false
      (simWorld { simEmpty with kubeConfig := some (simConfig ["prod", "staging"]) })
      (simWorld { simEmpty with kubeConfig := some (simConfig ["prod", "staging"]) })
      (by decide) (by decide)).2
      ⟨"https://127.0.0.1:6443"⟩
      { simEmpty with kubeConfig := some (simConfig ["prod", "staging"]) }
      (errorf "context nuvolaris not found")
      ⟨{ simEmpty with kubeConfig := some (simConfig ["prod", "staging"]) },
        [.buildConfigFromFlags "/home/dev/.kube/config", .rawConfig "/home/dev/.kube/config"]⟩
      (by decide) (by decide)⟩

end Nuv
